import Mathlib

/-!
Shallow embedding of the content-rotation and publish pipeline of
`telegram_bot.py` (ZeroSMM travel-post bot), together with theorems about
the rubric rotator, the schedule parser, the scheduler-state resolver, the
publish pipeline's fallback chain, the settings merge and the engagement
tracker.

Python strings are modelled as Lean `String` (a wrapper around `List Char`,
matching Python's sequence-of-code-points semantics); Python string
operations used by the bot are re-implemented below on `List Char`.
Python `dict` settings blobs are modelled by association lists; dict
truthiness (`if last_used:` / `if content_plan:`) is modelled by the
corresponding `Option`/emptiness tests at each use site.
-/

namespace TravelBot

/-- Python whitespace characters relevant to `str.strip` / `re.split(r"\s")`. -/
def pyWs (c : Char) : Bool :=
  c = ' ' ∨ c = '\t' ∨ c = '\n' ∨ c = '\r' ∨ c = '\x0b' ∨ c = '\x0c'

/-- Python `str.strip()`. -/
def pyTrim (s : String) : String :=
  ⟨((s.data.dropWhile pyWs).reverse.dropWhile pyWs).reverse⟩

/-- Python `str.upper()` (ASCII range; rubric codes are ASCII). -/
def pyUpper (s : String) : String :=
  ⟨s.data.map Char.toUpper⟩

/-- Python `str.lower()` (ASCII range; weekday codes are ASCII). -/
def pyLower (s : String) : String :=
  ⟨s.data.map Char.toLower⟩

/-- Python slicing `s[:n]` (by code points). -/
def pyTake (n : Nat) (s : String) : String :=
  ⟨s.data.take n⟩

/-- Python `a or b` for an optional string `a`: `None` and `""` are falsy. -/
def orStr : Option String → String → String
  | some s, b => if s = "" then b else s
  | none, b => b

/-- Python truthiness of an optional integer (`None` and `0` are falsy). -/
def truthyOptInt : Option Int → Bool
  | some n => n ≠ 0
  | none => false

/-- Python truthiness of an optional string (`None` and `""` are falsy). -/
def truthyOptStr : Option String → Bool
  | some s => s ≠ ""
  | none => false

/-- Decimal value of a digit list (used by `pyInt?`). -/
def digitsVal (l : List Char) : Nat :=
  l.foldl (fun a c => 10 * a + (c.toNat - '0'.toNat)) 0

/-- Python `int(s)`: strip whitespace, optional sign, then decimal digits;
`None` models a raised `ValueError`. -/
def pyInt? (s : String) : Option Int :=
  let t := ((s.data.dropWhile pyWs).reverse.dropWhile pyWs).reverse
  match t with
  | '-' :: rest =>
      if rest ≠ [] ∧ rest.all Char.isDigit then some (-(digitsVal rest : Int)) else none
  | '+' :: rest =>
      if rest ≠ [] ∧ rest.all Char.isDigit then some (digitsVal rest : Int) else none
  | l => if l ≠ [] ∧ l.all Char.isDigit then some (digitsVal l : Int) else none

/-- Python `str.split(sep)` for a one-character separator: splits at every
occurrence, keeping empty fields (`"".split(":") == [""]`). -/
def splitOnChar (sep : Char) : List Char → List (List Char)
  | [] => [[]]
  | c :: rest =>
      let r := splitOnChar sep rest
      if c = sep then [] :: r
      else
        match r with
        | [] => [[c]]
        | h :: t => (c :: h) :: t

/-- Splitting at every character satisfying `p`; with empty fields later
dropped this models `re.split(r"[\s,]+", s)`. -/
def splitPred (p : Char → Bool) : List Char → List (List Char)
  | [] => [[]]
  | c :: rest =>
      let r := splitPred p rest
      if p c then [] :: r
      else
        match r with
        | [] => [[c]]
        | h :: t => (c :: h) :: t

/-! ## Data model -/

/-- The `last_used` record of the settings blob (all fields optional). -/
structure LastUsed where
  rubric : Option String
  destination : Option String
  date : Option String
deriving DecidableEq

/-- The `schedule` sub-record of the settings blob. -/
structure Sched where
  enabled : Bool
  time : Option String
  frequency : Option String
deriving DecidableEq

/-- The typed view of the settings blob used by the pipeline, the rotator
and the scheduler (fields not read by those functions are omitted).
`content_plan` is the weekday-index → rubric-override dict, as an
association list; an empty list models a missing/empty (falsy) dict. -/
structure Settings where
  target_chat_id : Option Int
  rubric : Option String
  destination : Option String
  tone : Option String
  crosspost_vk : Bool
  schedule : Option Sched
  last_used : Option LastUsed
  content_plan : List (String × String)
deriving DecidableEq

/-- One entry of `post_log.json` (`append_log` / `increment_replies_for_message`).
`replies_count := none` models an entry whose key is absent. -/
structure LogEntry where
  chat_id : Int
  tg_message_id : Int
  rubric : String
  destination : String
  tone : String
  vk_post_id : Option String
  replies_count : Option Nat
deriving DecidableEq

/-! ## RubricRotator (`get_rubric_for_weekday`, lines 270-288) -/

/-- The fixed weekday table `WEEKDAY_RUBRIC` (0 = Monday .. 6 = Sunday). -/
def WEEKDAY_RUBRIC : List String :=
  ["TIPS", "ROUTE_1DAY", "FOOD", "FACT_DAY", "WEEKEND", "ROUTE_3DAYS", "CHECKLIST"]

/-- First-match lookup in a dict modelled as an association list. -/
def lookupKey (l : List (String × String)) (k : String) : Option String :=
  (l.find? (fun p => p.1 = k)).map (·.2)

/-- The duplicated guard of `get_rubric_for_weekday`: if the resolved code is
`CHECKLIST`, `last_used` is truthy and its date (first 10 chars) is today,
return `SEASON` instead. `today` is the injected `datetime.now().strftime("%Y-%m-%d")`. -/
def checklistGuard (r : String) (last_used : Option LastUsed) (today : String) : String :=
  if r = "CHECKLIST" then
    match last_used with
    | some lu => if pyTake 10 (lu.date.getD "") = today then "SEASON" else r
    | none => r
  else r

/-- Rotator `get_rubric_for_weekday(weekday, last_used, content_plan)`: rubric from
the content plan (key `str(weekday % 7)`, non-empty value, stripped and
upper-cased) or from `WEEKDAY_RUBRIC`, each behind `checklistGuard`.
The `getD "TIPS"` default is never hit: `weekday % 7 < 7`. -/
def get_rubric_for_weekday (weekday : Nat) (last_used : Option LastUsed)
    (content_plan : List (String × String)) (today : String) : String :=
  match lookupKey content_plan (toString (weekday % 7)) with
  | some v =>
      if v ≠ "" then checklistGuard (pyUpper (pyTrim v)) last_used today
      else checklistGuard (WEEKDAY_RUBRIC.getD (weekday % 7) "TIPS") last_used today
  | none => checklistGuard (WEEKDAY_RUBRIC.getD (weekday % 7) "TIPS") last_used today

/-- The rubric resolved before the checklist substitution (content plan
entry if present and non-empty, else the weekday table). -/
def resolveBaseRubric (weekday : Nat) (content_plan : List (String × String)) : String :=
  match lookupKey content_plan (toString (weekday % 7)) with
  | some v =>
      if v ≠ "" then pyUpper (pyTrim v)
      else WEEKDAY_RUBRIC.getD (weekday % 7) "TIPS"
  | none => WEEKDAY_RUBRIC.getD (weekday % 7) "TIPS"

/-- The rubric recorded as previously used (`last.get("rubric")` after
`settings.get("last_used") or {}`). -/
def lastRubricOf (last_used : Option LastUsed) : Option String :=
  match last_used with
  | some lu => lu.rubric
  | none => none

/-- The rubric chosen by `scheduled_job_standalone` (lines 310-320): the
rotator result, force-replaced by `"TIPS"` (or `"FOOD"` when it already is
`"TIPS"`) whenever it equals the previous run's rubric. -/
def scheduledRubric (wd : Nat) (last_used : Option LastUsed)
    (content_plan : List (String × String)) (today : String) : String :=
  let rubric := get_rubric_for_weekday wd last_used content_plan today
  let prev := lastRubricOf last_used
  if some rubric = prev then (if rubric ≠ "TIPS" then "TIPS" else "FOOD") else rubric

/-! ## ScheduleResolver (`setup_scheduler`, lines 342-400) -/

/-- Time parsing `h, m = map(int, time_str.replace(".", ":").split(":")[:2])` with
`except: h, m = 9, 30`, after `time_str = schedule.get("time") or "09:30"`.
A slice of length ≠ 2 or a non-integer field raises, giving the default. -/
def parseScheduleTime (t : Option String) : Int × Int :=
  let time_str := orStr t "09:30"
  let parts := (splitOnChar ':' (time_str.data.map (fun c => if c = '.' then ':' else c))).take 2
  match parts with
  | [a, b] =>
      match pyInt? ⟨a⟩, pyInt? ⟨b⟩ with
      | some h, some m => (h, m)
      | _, _ => (9, 30)
  | _ => (9, 30)

/-- Result of the frequency branch: a daily cron trigger or a
`day_of_week` list (sorted, as in `",".join(str(d) for d in sorted(days))`). -/
inductive Freq
  | daily
  | days (ds : List Nat)
deriving DecidableEq

/-- The weekday-code table `day_map`. -/
def day_map : List (String × Nat) :=
  [("mon", 0), ("tue", 1), ("wed", 2), ("thu", 3), ("fri", 4), ("sat", 5), ("sun", 6)]

/-- Valid-day accumulation: `for p in parts: if p in day_map and day_map[p] not in days: days.append(day_map[p])`. -/
def collectDaysAux : List (List Char) → List Nat → List Nat
  | [], acc => acc
  | p :: ps, acc =>
      match day_map.find? (fun q => q.1 = String.mk p) with
      | some q => collectDaysAux ps (if q.2 ∈ acc then acc else acc ++ [q.2])
      | none => collectDaysAux ps acc

/-- The `days` list built by the loop, starting from `days = []`. -/
def collectDays (parts : List (List Char)) : List Nat :=
  collectDaysAux parts []

/-- Frequency parsing `freq = (schedule.get("frequency") or "daily").strip().lower()`, then the
daily / weekday-list branch of `setup_scheduler`: split on `[\s,]+`, map
through `day_map`, fall back to `[0, 2, 4]` when no token is valid, and
sort the day list for the trigger. -/
def parseFrequency (f : Option String) : Freq :=
  let freq := pyLower (pyTrim (orStr f "daily"))
  if freq = "daily" then Freq.daily
  else
    let parts := splitPred (fun c => pyWs c ∨ c = ',') (pyLower freq).data
    let days := collectDays parts
    let days := if days = [] then [0, 2, 4] else days
    Freq.days (days.insertionSort (· ≤ ·))

/-- A compiled cron trigger: `day_of_week := none` is the daily trigger. -/
structure CronTrigger where
  day_of_week : Option (List Nat)
  hour : Int
  minute : Int
deriving DecidableEq

/-- Process environment read by `setup_scheduler`: whether
APScheduler/pytz import, and the `TELEGRAM_CHAT_ID` env string. -/
structure SchedEnv where
  apschedulerAvailable : Bool
  telegram_chat_id : Option String
deriving DecidableEq

/-- The global `_scheduler`: `none` before `BackgroundScheduler()` is
created, else its job list (id, trigger). -/
abbrev SchedState := Option (List (String × CronTrigger))

/-- Target resolution at the head of `setup_scheduler`: the stored
`target_chat_id`, else `int(TELEGRAM_CHAT_ID)` when that parses. -/
def resolveSchedTarget (s : Settings) (e : SchedEnv) : Option Int :=
  let target := s.target_chat_id
  if ¬truthyOptInt target ∧ truthyOptStr e.telegram_chat_id then
    match pyInt? (e.telegram_chat_id.getD "") with
    | some n => some n
    | none => target
  else target

/-- Removal `_scheduler.remove_job("travel_post_job")` (absence swallowed; job ids
are unique under APScheduler, a filter removes the job if present). -/
def removeJob (jobs : List (String × CronTrigger)) : List (String × CronTrigger) :=
  jobs.filter (fun j => j.1 ≠ "travel_post_job")

/-- One call of `setup_scheduler` as a transition on the `_scheduler`
state. Import failure returns unchanged; disabled schedule or missing
target removes the job; otherwise the trigger is compiled, the scheduler
is created if needed, and the job is removed then re-added. -/
def setup_scheduler (s : Settings) (e : SchedEnv) (st : SchedState) : SchedState :=
  if ¬e.apschedulerAvailable then st
  else
    let schedule := s.schedule.getD ⟨false, none, none⟩
    let target := resolveSchedTarget s e
    if ¬schedule.enabled ∨ ¬truthyOptInt target then
      match st with
      | none => none
      | some jobs => some (removeJob jobs)
    else
      let hm := parseScheduleTime schedule.time
      let trigger : CronTrigger :=
        match parseFrequency schedule.frequency with
        | Freq.daily => ⟨none, hm.1, hm.2⟩
        | Freq.days ds => ⟨some ds, hm.1, hm.2⟩
      some (removeJob (st.getD []) ++ [("travel_post_job", trigger)])

/-- Number of installed triggers for the logical publish job. -/
def countJob (st : SchedState) : Nat :=
  match st with
  | none => 0
  | some jobs => (jobs.filter (fun j => j.1 = "travel_post_job")).length

/-- A sequence of `setup_scheduler` calls from process start (`_scheduler = None`). -/
def runSchedCalls (calls : List (Settings × SchedEnv)) : SchedState :=
  calls.foldl (fun st c => setup_scheduler c.1 c.2 st) none

/-! ## PublishPipeline (`run_generate_and_publish`, lines 153-267) -/

/-- Output of `generate_travel_post` (keys read by the pipeline; missing keys
are `None`). -/
structure Content where
  post_text : Option String
  image_prompt : Option String

/-- Delivery tiers of the primary-channel fallback chain. -/
inductive Tier
  | url
  | bytes
  | textOnly
deriving DecidableEq

/-- Modelled from the spec: outcomes of the external collaborators called
by one pipeline run (the generative backends of `generations/`, the
primary-channel publisher of `social_publishers/telegram_publisher.py`
whose `publish_post` returns a message id on success and raises on
failure, and the VK publisher) — those modules are not under `src/`; per
the spec, `sendText`/`sendImageByUrl`/`sendImageByBytes` return a
`messageId` and `publish(text, imageUrl?)` returns a `postId`. The two
image tiers are keyed by the url and the caption they are given, the
text tier by the text; `Except.error` models a raised exception or a
non-ok HTTP response. -/
structure PublishEnv where
  hasOpenAIKey : Bool
  textGen : Except String Content
  imageGen : Except String (List String)
  sendPhotoUrl : String → String → Except String Nat
  sendPhotoBytes : String → String → Except String Nat
  sendTextOnly : String → Except String Nat
  vkConfigured : Bool
  vkPublish : Except String (Option Int)
  today : String

/-- The result dict of `run_generate_and_publish`. -/
structure PublishResult where
  ok : Bool
  tg_message_id : Option Nat
  vk_post_id : Option String
  error : Option String
deriving DecidableEq

/-- Full outcome of one run: the result dict, the post log after the run,
the settings after the run, and the trace of delivery tiers attempted
(with the text handed to each attempt). -/
structure RunOut where
  result : PublishResult
  log : List LogEntry
  settings : Settings
  tiers : List (Tier × String)

/-- The image url actually used: `urls[0]` if generation succeeded and the
list is non-empty (`if urls:`), else `None`. -/
def firstImageUrl : Except String (List String) → Option String
  | Except.ok (u :: _) => some u
  | Except.ok [] => none
  | Except.error _ => none

/-- Primary-channel delivery, lines 199-234: with a (truthy) image url,
tier (a) sends the photo by url with caption `post_text[:1024]`; on
failure tier (b) downloads the bytes and re-sends with the same caption;
on failure tier (c) sends text-only. Without an image the text-only path
is taken directly. Also returns the attempt trace. -/
def deliverPrimary (image_url : Option String) (post_text : String) (env : PublishEnv) :
    Except String Nat × List (Tier × String) :=
  if truthyOptStr image_url then
    let u := image_url.getD ""
    let caption := pyTake 1024 post_text
    match env.sendPhotoUrl u caption with
    | Except.ok mid => (Except.ok mid, [(Tier.url, caption)])
    | Except.error _ =>
        match env.sendPhotoBytes u caption with
        | Except.ok mid => (Except.ok mid, [(Tier.url, caption), (Tier.bytes, caption)])
        | Except.error _ =>
            (env.sendTextOnly post_text,
             [(Tier.url, caption), (Tier.bytes, caption), (Tier.textOnly, post_text)])
  else (env.sendTextOnly post_text, [(Tier.textOnly, post_text)])

/-- Update `log[-1]["vk_post_id"] = pid` guarded by `if log:`. -/
def setLastVk (pid : String) : List LogEntry → List LogEntry
  | [] => []
  | [e] => [{ e with vk_post_id := some pid }]
  | e :: rest => e :: setLastVk pid rest

/-- Pipeline `run_generate_and_publish(chat_id, settings, destination_override)`:
precondition checks, text generation (terminal on failure), image
generation (non-fatal), three-tier delivery, unconditional log append once
a message id is obtained, optional VK mirror (non-fatal, updates the last
log entry in place on success), and the `last_used` settings update. -/
def run_generate_and_publish (settings : Settings) (destination_override : Option String)
    (env : PublishEnv) (log : List LogEntry) : RunOut :=
  if ¬truthyOptInt settings.target_chat_id then
    ⟨⟨false, none, none, some "Не задан целевой чат. Вызови /set_target в группе/канале."⟩,
      log, settings, []⟩
  else
    let target := settings.target_chat_id.getD 0
    let dest := pyTrim (orStr destination_override (orStr settings.destination "Стамбул"))
    let rubric := orStr settings.rubric "TIPS"
    let tone := orStr settings.tone "FRIENDLY"
    if ¬env.hasOpenAIKey then
      ⟨⟨false, none, none, some "OPENAI_API_KEY не задан в .env"⟩, log, settings, []⟩
    else
      match env.textGen with
      | Except.error e => ⟨⟨false, none, none, some e⟩, log, settings, []⟩
      | Except.ok out =>
          let post_text := pyTake 4000 (orStr out.post_text "")
          let image_url := firstImageUrl env.imageGen
          let dres := deliverPrimary image_url post_text env
          match dres.1 with
          | Except.error e => ⟨⟨false, none, none, some e⟩, log, settings, dres.2⟩
          | Except.ok mid =>
              let log1 := log ++ [⟨target, Int.ofNat mid, rubric, dest, tone, none, some 0⟩]
              let vkOut : Option String × List LogEntry :=
                if settings.crosspost_vk ∧ env.vkConfigured then
                  match env.vkPublish with
                  | Except.ok (some pid) => (some (toString pid), setLastVk (toString pid) log1)
                  | Except.ok none => (none, log1)
                  | Except.error _ => (none, log1)
                else (none, log1)
              let settings1 := { settings with
                last_used := some ⟨some rubric, some dest, some env.today⟩ }
              ⟨⟨true, some mid, vkOut.1, none⟩, vkOut.2, settings1, dres.2⟩

/-! ## EngagementTracker (`increment_replies_for_message`, lines 142-150) -/

/-- Match test `entry.get("chat_id") == chat_id and entry.get("tg_message_id") == tg_message_id`. -/
def matchesEntry (chat_id tg_message_id : Int) (e : LogEntry) : Bool :=
  e.chat_id = chat_id ∧ e.tg_message_id = tg_message_id

/-- Increment the first matching entry of a list, leaving the rest as is
(`entry["replies_count"] = entry.get("replies_count", 0) + 1` then return). -/
def bumpFirst (chat_id tg_message_id : Int) : List LogEntry → List LogEntry
  | [] => []
  | e :: rest =>
      if matchesEntry chat_id tg_message_id e then
        { e with replies_count := some (e.replies_count.getD 0 + 1) } :: rest
      else e :: bumpFirst chat_id tg_message_id rest

/-- Tracker `increment_replies_for_message`: scan `reversed(log)` for the first
match and bump it; no match is a silent no-op. -/
def increment_replies_for_message (chat_id tg_message_id : Int) (log : List LogEntry) :
    List LogEntry :=
  (bumpFirst chat_id tg_message_id log.reverse).reverse

/-- The updated entry written back by `increment_replies_for_message`. -/
def bumpEntry (e : LogEntry) : LogEntry :=
  { e with replies_count := some (e.replies_count.getD 0 + 1) }

/-! ## SettingsStore (`load_settings`, lines 81-94) -/

/-- JSON-shaped values occurring in the settings blob (flattened: the
merge loop never inspects values, only keys). -/
inductive SVal
  | null
  | str (s : String)
  | boolv (b : Bool)
  | intv (n : Int)
  | strList (l : List String)
  | sched (enabled : Bool) (time : String) (frequency : String)
  | lastUsedV (rubric destination date : Option String)
deriving DecidableEq

/-- Table `DEFAULT_SETTINGS` (lines 35-47); the `timezone` default is the
`TIMEZONE` env fallback `"Europe/Berlin"`. -/
def DEFAULT_SETTINGS : List (String × SVal) :=
  [("target_chat_id", SVal.null),
   ("timezone", SVal.str "Europe/Berlin"),
   ("rubric", SVal.str "TIPS"),
   ("destination", SVal.str "Стамбул"),
   ("season", SVal.null),
   ("tone", SVal.str "FRIENDLY"),
   ("audience", SVal.null),
   ("constraints", SVal.strList []),
   ("schedule", SVal.sched false "09:30" "daily"),
   ("crosspost_vk", SVal.boolv true),
   ("last_used", SVal.lastUsedV none none none)]

/-- Membership `k in data` for the dict modelled as an association list. -/
def containsKey (d : List (String × SVal)) (k : String) : Bool :=
  d.any (fun p => p.1 = k)

/-- First-match dict lookup. -/
def lookupS (d : List (String × SVal)) (k : String) : Option SVal :=
  (d.find? (fun p => p.1 = k)).map (·.2)

/-- The backfill loop of `load_settings`:
`for k, v in DEFAULT_SETTINGS.items(): if k not in data: data[k] = v`. -/
def mergeDefaults (data : List (String × SVal)) : List (String × SVal) :=
  DEFAULT_SETTINGS.foldl (fun d kv => if containsKey d kv.1 then d else d ++ [kv]) data

/-- Loader `load_settings()`: `none` = file absent, `some none` = unreadable
(exception), `some (some data)` = parsed record, then defaults backfilled. -/
def load_settings (file : Option (Option (List (String × SVal)))) : List (String × SVal) :=
  match file with
  | none => DEFAULT_SETTINGS
  | some none => DEFAULT_SETTINGS
  | some (some data) => mergeDefaults data

/-- The backfill loop over an arbitrary defaults list (for induction). -/
def mergeGo (defs : List (String × SVal)) (d : List (String × SVal)) : List (String × SVal) :=
  defs.foldl (fun d kv => if containsKey d kv.1 then d else d ++ [kv]) d

/-- Truncation `post_text = (out.get("post_text") or "")[:4000]`. -/
def runPostText (c : Content) : String :=
  pyTake 4000 (orStr c.post_text "")

/-- The caption handed to both image tiers: `post_text[:1024]`. -/
def runCaption (c : Content) : String :=
  pyTake 1024 (runPostText c)

/-- Concrete settings used by the closed witness theorems. -/
def wSettings : Settings :=
  ⟨some 42, some "TIPS", some "Лиссабон", some "FRIENDLY", true, none, none, []⟩

/-- Concrete generated content used by the closed witness theorems. -/
def wContent : Content := ⟨some "hello", some "prompt"⟩

/-- Concrete environment (url-tier delivery succeeds, VK mirror fails)
used by the closed witness theorems. -/
def wEnvUrlOk : PublishEnv :=
  ⟨true, Except.ok wContent, Except.ok ["http://img"], fun _ _ => Except.ok 5,
   fun _ _ => Except.error "bytes fail", fun _ => Except.ok 7, true,
   Except.error "vk down", "2026-10-12"⟩

/-! ## Helper lemmas -/

theorem pyTake_of_length_le {n : Nat} {s : String} (h : s.length ≤ n) : pyTake n s = s := by
  cases s with
  | mk data => exact congrArg String.mk (List.take_of_length_le h)

theorem orStr_some_ne {s : String} (h : s ≠ "") (b : String) : orStr (some s) b = s := by
  simp [orStr, h]

theorem get_rubric_eq_guard_base (weekday : Nat) (last_used : Option LastUsed)
    (content_plan : List (String × String)) (today : String) :
    get_rubric_for_weekday weekday last_used content_plan today =
      checklistGuard (resolveBaseRubric weekday content_plan) last_used today := by
  unfold get_rubric_for_weekday resolveBaseRubric
  cases h : lookupKey content_plan (toString (weekday % 7)) with
  | none => rfl
  | some v => by_cases hv : v = "" <;> simp [hv]

/-! ## C4: checklist anti-repeat in the rotator -/

/-- C4: for every weekday, last-used record and content plan, if the
rubric resolved from the content plan or the fixed weekday table is
`"CHECKLIST"` and the last-used record's date equals today's date (a
date string of at most 10 characters), `get_rubric_for_weekday` returns
the seasonal fallback `"SEASON"`, which differs from `"CHECKLIST"`. -/
theorem C4_checklist_substitution (weekday : Nat) (lu : LastUsed)
    (content_plan : List (String × String)) (today : String)
    (hbase : resolveBaseRubric weekday content_plan = "CHECKLIST")
    (hdate : lu.date = some today) (hlen : today.length ≤ 10) :
    get_rubric_for_weekday weekday (some lu) content_plan today = "SEASON" ∧
      ("SEASON" : String) ≠ "CHECKLIST" := by
  refine ⟨?_, by decide⟩
  rw [get_rubric_eq_guard_base, hbase]
  unfold checklistGuard
  rw [if_pos rfl]
  show (if pyTake 10 (lu.date.getD "") = today then "SEASON" else "CHECKLIST") = "SEASON"
  rw [hdate]
  simp only [Option.getD_some]
  simp [pyTake_of_length_le hlen]

theorem C4_witness :
    get_rubric_for_weekday 6 (some ⟨some "TIPS", none, some "2026-10-12"⟩) []
        "2026-10-12" = "SEASON" ∧ ("SEASON" : String) ≠ "CHECKLIST" :=
  C4_checklist_substitution 6 ⟨some "TIPS", none, some "2026-10-12"⟩ [] "2026-10-12"
    (by decide) rfl (by decide)

/-! ## C3: consecutive-run anti-repeat in the scheduled orchestration -/

/-- C3: whenever the rotator's result equals the rubric recorded in
`last_used`, the scheduled orchestration deterministically substitutes one
of the two fixed alternates `"TIPS"` / `"FOOD"`; and in every case the
rubric actually used differs from the previous run's recorded rubric. -/
theorem C3_consecutive_antirepeat (wd : Nat) (last_used : Option LastUsed)
    (content_plan : List (String × String)) (today : String) :
    (lastRubricOf last_used = some (get_rubric_for_weekday wd last_used content_plan today) →
      scheduledRubric wd last_used content_plan today =
        (if get_rubric_for_weekday wd last_used content_plan today ≠ "TIPS"
         then "TIPS" else "FOOD") ∧
      (scheduledRubric wd last_used content_plan today = "TIPS" ∨
       scheduledRubric wd last_used content_plan today = "FOOD")) ∧
    (∀ p, lastRubricOf last_used = some p →
      scheduledRubric wd last_used content_plan today ≠ p) := by
  unfold scheduledRubric
  set r := get_rubric_for_weekday wd last_used content_plan today with hr
  constructor
  · intro h
    rw [if_pos h.symm]
    refine ⟨rfl, ?_⟩
    by_cases hT : r = "TIPS"
    · simp [hT]
    · simp [hT]
  · intro p hp
    by_cases he : some r = lastRubricOf last_used
    · rw [if_pos he]
      have hrp : r = p := by
        rw [hp] at he
        exact Option.some_injective _ he
      by_cases hT : r = "TIPS"
      · rw [if_neg (by simp [hT]), ← hrp, hT]
        decide
      · rw [if_pos hT, ← hrp]
        exact fun hc => hT hc.symm
    · rw [if_neg he]
      intro hc
      exact he (by rw [hc, hp])

theorem C3_witness :
    scheduledRubric 0 (some ⟨some "TIPS", none, none⟩) [] "2026-10-12" ≠ "TIPS" :=
  (C3_consecutive_antirepeat 0 (some ⟨some "TIPS", none, none⟩) [] "2026-10-12").2
    "TIPS" rfl

/-! ## C5: schedule time parsing -/

/-- C5 counterexample: the claim says `"25:99"` is malformed and must fall
back to the default `(9, 30)`; the code performs no range validation and
parses it to `(25, 99)`. -/
theorem C5_counterexample :
    parseScheduleTime (some "25:99") = (25, 99) ∧
      ((25, 99) : Int × Int) ≠ (9, 30) := by
  constructor
  · decide
  · decide

/-- C5 (amended): a time string whose first two `:`/`.`-separated fields
parse as integers yields exactly those numbers, with no range check
(`"9:5"` → `(9, 5)`, `"25:99"` → `(25, 99)`, extra fields ignored); a
missing or empty time is replaced by the default `"09:30"` before parsing;
a string that does not yield two integer fields falls back to `(9, 30)`;
and `.` is interchangeable with `:`. -/
theorem C5_time_parse_amended :
    parseScheduleTime (some "9:5") = (9, 5) ∧
    parseScheduleTime (some "9.15") = (9, 15) ∧
    parseScheduleTime (some "09:30") = (9, 30) ∧
    parseScheduleTime (some "25:99") = (25, 99) ∧
    parseScheduleTime (some "") = (9, 30) ∧
    parseScheduleTime none = (9, 30) ∧
    parseScheduleTime (some "abc") = (9, 30) ∧
    parseScheduleTime (some "12") = (9, 30) ∧
    parseScheduleTime (some "7:") = (9, 30) ∧
    parseScheduleTime (some "7:30:59") = (7, 30) ∧
    ∀ s : String,
      parseScheduleTime (some ⟨s.data.map (fun c => if c = '.' then ':' else c)⟩) =
        parseScheduleTime (some s) := by
  refine ⟨by decide, by decide, by decide, by decide, by decide, by decide, by decide,
    by decide, by decide, by decide, ?_⟩
  intro s
  by_cases hs : s = ""
  · subst hs
    decide
  · have hmap : (⟨s.data.map (fun c => if c = '.' then ':' else c)⟩ : String) ≠ "" := by
      intro hc
      apply hs
      cases s with
      | mk data =>
        have : data.map (fun c => if c = '.' then ':' else c) = [] :=
          congrArg String.data hc
        simp at this
        simp [this]
    have hff : ((⟨s.data.map (fun c => if c = '.' then ':' else c)⟩ : String)).data.map
        (fun c => if c = '.' then ':' else c) =
        s.data.map (fun c => if c = '.' then ':' else c) := by
      show (s.data.map _).map _ = _
      rw [List.map_map]
      congr 1
      funext c
      by_cases hc : c = '.'
      · simp [hc]
      · simp [hc]
    simp only [parseScheduleTime, orStr]
    rw [if_neg hmap, if_neg hs, hff]

/-! ## C6: schedule frequency parsing -/

theorem day_map_snd_lt7 {q : String × Nat} (hq : q ∈ day_map) : q.2 < 7 := by
  fin_cases hq <;> decide

theorem collectDaysAux_lt7 (parts : List (List Char)) (acc : List Nat)
    (hacc : ∀ d ∈ acc, d < 7) : ∀ d ∈ collectDaysAux parts acc, d < 7 := by
  induction parts generalizing acc with
  | nil => exact hacc
  | cons p ps ih =>
      unfold collectDaysAux
      cases hq : day_map.find? (fun q => q.1 = String.mk p) with
      | none => exact ih acc hacc
      | some q =>
          apply ih
          intro d hd
          by_cases hmem : q.2 ∈ acc
          · rw [if_pos hmem] at hd
            exact hacc d hd
          · rw [if_neg hmem] at hd
            rcases List.mem_append.mp hd with h | h
            · exact hacc d h
            · rcases List.mem_singleton.mp h with rfl
              exact day_map_snd_lt7 (List.mem_of_find?_eq_some hq)

theorem collectDays_lt7 (parts : List (List Char)) : ∀ d ∈ collectDays parts, d < 7 :=
  collectDaysAux_lt7 parts [] (by intro d hd; cases hd)

theorem daysBranch_ne_nil (parts : List (List Char)) :
    ((if collectDays parts = [] then [0, 2, 4] else collectDays parts).insertionSort
      (· ≤ ·)) ≠ [] := by
  intro hnil
  have hlen := congrArg List.length hnil
  rw [List.length_insertionSort] at hlen
  by_cases hc : collectDays parts = []
  · rw [if_pos hc] at hlen
    simp at hlen
  · rw [if_neg hc] at hlen
    simp at hlen
    exact hc hlen

theorem daysBranch_lt7 (parts : List (List Char)) :
    ∀ d ∈ ((if collectDays parts = [] then [0, 2, 4] else collectDays parts).insertionSort
      (· ≤ ·)), d < 7 := by
  intro d hd2
  rw [List.mem_insertionSort] at hd2
  by_cases hc : collectDays parts = []
  · rw [if_pos hc] at hd2
    fin_cases hd2 <;> decide
  · rw [if_neg hc] at hd2
    exact collectDays_lt7 _ d hd2

/-- C6 counterexample: `"DAILY"` is a frequency string other than the
literal `"daily"`, yet the code normalizes it with `strip().lower()` and
takes the daily branch; the claim instead requires token-splitting, which
would yield no valid token and the fallback day set `{mon, wed, fri}`. -/
theorem C6_counterexample :
    parseFrequency (some "DAILY") = Freq.daily ∧
      Freq.daily ≠ Freq.days [0, 2, 4] := by
  constructor
  · decide
  · decide

/-- C6 (amended): for every non-empty frequency string whose stripped,
lower-cased form is not `"daily"`, the string is split on whitespace and
commas, tokens are matched case-insensitively against the seven weekday
codes, invalid tokens are dropped, and the resulting sorted day list is
non-empty (falling back to `{mon, wed, fri} = [0, 2, 4]` when no token is
valid) with every day index below 7; in particular `"mon, FRI"` yields
`[0, 4]` and `"xx,yy"` yields `[0, 2, 4]`. Empty, missing, or
`"daily"`-normalizing strings take the daily branch instead. -/
theorem C6_frequency_parse_amended :
    parseFrequency (some "mon, FRI") = Freq.days [0, 4] ∧
    parseFrequency (some "xx,yy") = Freq.days [0, 2, 4] ∧
    parseFrequency (some "sun sat") = Freq.days [5, 6] ∧
    parseFrequency (some "Mon,mon,SUN") = Freq.days [0, 6] ∧
    parseFrequency (some "") = Freq.daily ∧
    parseFrequency none = Freq.daily ∧
    parseFrequency (some " Daily ") = Freq.daily ∧
    ∀ s : String, s ≠ "" → pyLower (pyTrim s) ≠ "daily" →
      ∃ ds, parseFrequency (some s) = Freq.days ds ∧ ds ≠ [] ∧ ∀ d ∈ ds, d < 7 := by
  refine ⟨by decide, by decide, by decide, by decide, by decide, by decide, by decide, ?_⟩
  intro s hs hd
  simp only [parseFrequency, orStr_some_ne hs]
  rw [if_neg hd]
  exact ⟨_, rfl, daysBranch_ne_nil _, daysBranch_lt7 _⟩

theorem C6_witness :
    ∃ ds, parseFrequency (some "tue") = Freq.days ds ∧ ds ≠ [] ∧ ∀ d ∈ ds, d < 7 :=
  C6_frequency_parse_amended.2.2.2.2.2.2.2 "tue" (by decide) (by decide)

/-! ## C8 / C10: engagement tracker -/

theorem bumpFirst_of_no_match (chat_id tg_message_id : Int) (l : List LogEntry)
    (h : ∀ e ∈ l, matchesEntry chat_id tg_message_id e = false) :
    bumpFirst chat_id tg_message_id l = l := by
  induction l with
  | nil => rfl
  | cons e rest ih =>
      unfold bumpFirst
      rw [if_neg (by simp [h e (List.mem_cons_self e rest)])]
      rw [ih (fun x hx => h x (List.mem_cons_of_mem e hx))]

theorem bumpFirst_append (chat_id tg_message_id : Int) (l1 : List LogEntry) (e : LogEntry)
    (l2 : List LogEntry) (h1 : ∀ x ∈ l1, matchesEntry chat_id tg_message_id x = false)
    (he : matchesEntry chat_id tg_message_id e = true) :
    bumpFirst chat_id tg_message_id (l1 ++ e :: l2) = l1 ++ bumpEntry e :: l2 := by
  induction l1 with
  | nil =>
      show bumpFirst chat_id tg_message_id (e :: l2) = bumpEntry e :: l2
      unfold bumpFirst
      rw [if_pos (by simp [he])]
      rfl
  | cons x xs ih =>
      show bumpFirst chat_id tg_message_id (x :: (xs ++ e :: l2)) = x :: (xs ++ bumpEntry e :: l2)
      unfold bumpFirst
      rw [if_neg (by simp [h1 x (List.mem_cons_self x xs)])]
      rw [ih (fun y hy => h1 y (List.mem_cons_of_mem x hy))]

theorem increment_decomp (chat_id tg_message_id : Int) (pre post : List LogEntry)
    (e : LogEntry) (he : matchesEntry chat_id tg_message_id e = true)
    (hpost : ∀ x ∈ post, matchesEntry chat_id tg_message_id x = false) :
    increment_replies_for_message chat_id tg_message_id (pre ++ e :: post) =
      pre ++ bumpEntry e :: post := by
  unfold increment_replies_for_message
  have hrev : (pre ++ e :: post).reverse = post.reverse ++ e :: pre.reverse := by
    rw [List.reverse_append pre (e :: post), List.reverse_cons, List.append_assoc]
    rfl
  rw [hrev]
  rw [bumpFirst_append chat_id tg_message_id post.reverse e pre.reverse
    (fun x hx => hpost x (List.mem_reverse.mp hx)) he]
  rw [List.reverse_append post.reverse (bumpEntry e :: pre.reverse), List.reverse_cons,
    List.reverse_reverse, List.reverse_reverse, List.append_assoc]
  rfl

/-- C8: the tracker scans the log from most recent to oldest, increments
the reply counter of the most recent matching entry, and on no match
returns the log unchanged (a silent no-op; the function is total, nothing
is raised). -/
theorem C8_reply_tracking (chat_id tg_message_id : Int) (log : List LogEntry) :
    ((∀ e ∈ log, matchesEntry chat_id tg_message_id e = false) →
      increment_replies_for_message chat_id tg_message_id log = log) ∧
    (∀ pre e post, log = pre ++ e :: post →
      matchesEntry chat_id tg_message_id e = true →
      (∀ x ∈ post, matchesEntry chat_id tg_message_id x = false) →
      increment_replies_for_message chat_id tg_message_id log =
        pre ++ { e with replies_count := some (e.replies_count.getD 0 + 1) } :: post) := by
  constructor
  · intro h
    unfold increment_replies_for_message
    rw [bumpFirst_of_no_match chat_id tg_message_id log.reverse
      (fun x hx => h x (List.mem_reverse.mp hx))]
    exact List.reverse_reverse log
  · intro pre e post hlog he hpost
    rw [hlog]
    exact increment_decomp chat_id tg_message_id pre post e he hpost

theorem C8_witness :
    increment_replies_for_message 1 2
        [⟨7, 9, "TIPS", "Прага", "FRIENDLY", none, some 0⟩] =
      [⟨7, 9, "TIPS", "Прага", "FRIENDLY", none, some 0⟩] :=
  (C8_reply_tracking 1 2 [⟨7, 9, "TIPS", "Прага", "FRIENDLY", none, some 0⟩]).1
    (by decide)

/-- C10: when a matching entry exists, the increment preserves the log's
length, leaves every entry other than the most recent match entirely
unchanged, and rewrites that one entry to the record that agrees with it
on every field except `replies_count`, which becomes its old value
(defaulting to 0 when absent) plus 1. -/
theorem C10_increment_frame (chat_id tg_message_id : Int) (log pre post : List LogEntry)
    (e : LogEntry) (hlog : log = pre ++ e :: post)
    (he : matchesEntry chat_id tg_message_id e = true)
    (hpost : ∀ x ∈ post, matchesEntry chat_id tg_message_id x = false) :
    (increment_replies_for_message chat_id tg_message_id log).length = log.length ∧
    increment_replies_for_message chat_id tg_message_id log =
      pre ++ (⟨e.chat_id, e.tg_message_id, e.rubric, e.destination, e.tone, e.vk_post_id,
        some (e.replies_count.getD 0 + 1)⟩ : LogEntry) :: post := by
  have hdec := increment_decomp chat_id tg_message_id pre post e he hpost
  rw [hlog]
  have hshape : (⟨e.chat_id, e.tg_message_id, e.rubric, e.destination, e.tone, e.vk_post_id,
      some (e.replies_count.getD 0 + 1)⟩ : LogEntry) = bumpEntry e := by
    cases e
    rfl
  rw [hshape, hdec]
  constructor
  · simp
  · rfl

theorem C10_witness :
    (increment_replies_for_message 7 9
        [⟨7, 9, "TIPS", "Прага", "FRIENDLY", none, none⟩,
         ⟨7, 9, "FOOD", "Рим", "EXPERT", none, some 2⟩,
         ⟨5, 5, "TIPS", "Бали", "FRIENDLY", none, some 0⟩]).length = 3 ∧
    increment_replies_for_message 7 9
        [⟨7, 9, "TIPS", "Прага", "FRIENDLY", none, none⟩,
         ⟨7, 9, "FOOD", "Рим", "EXPERT", none, some 2⟩,
         ⟨5, 5, "TIPS", "Бали", "FRIENDLY", none, some 0⟩] =
      [⟨7, 9, "TIPS", "Прага", "FRIENDLY", none, none⟩] ++
        (⟨7, 9, "FOOD", "Рим", "EXPERT", none, some 3⟩ : LogEntry) ::
          [⟨5, 5, "TIPS", "Бали", "FRIENDLY", none, some 0⟩] :=
  C10_increment_frame 7 9
    [⟨7, 9, "TIPS", "Прага", "FRIENDLY", none, none⟩,
     ⟨7, 9, "FOOD", "Рим", "EXPERT", none, some 2⟩,
     ⟨5, 5, "TIPS", "Бали", "FRIENDLY", none, some 0⟩]
    [⟨7, 9, "TIPS", "Прага", "FRIENDLY", none, none⟩]
    [⟨5, 5, "TIPS", "Бали", "FRIENDLY", none, some 0⟩]
    ⟨7, 9, "FOOD", "Рим", "EXPERT", none, some 2⟩
    (by decide) (by decide) (by decide)

/-! ## C9: settings load merge -/

theorem mergeDefaults_eq_go (data : List (String × SVal)) :
    mergeDefaults data = mergeGo DEFAULT_SETTINGS data := rfl

theorem lookupS_none_of_not_contains {d : List (String × SVal)} {k : String}
    (h : containsKey d k = false) : lookupS d k = none := by
  unfold lookupS
  rw [List.find?_eq_none.mpr]
  · rfl
  · intro p hp hpk
    have hT : containsKey d k = true := by
      unfold containsKey
      exact List.any_eq_true.mpr ⟨p, hp, hpk⟩
    rw [h] at hT
    simp at hT

theorem lookupS_append_left {d d2 : List (String × SVal)} {k : String} {v : SVal}
    (h : lookupS d k = some v) : lookupS (d ++ d2) k = some v := by
  unfold lookupS at h ⊢
  rw [List.find?_append]
  cases hf : d.find? (fun p => p.1 = k) with
  | none => rw [hf] at h; cases h
  | some p => rw [hf] at h; simp [h, Option.or]

theorem containsKey_append {d d2 : List (String × SVal)} {k : String} :
    containsKey (d ++ d2) k = (containsKey d k || containsKey d2 k) := by
  unfold containsKey
  exact List.any_append

theorem mergeGo_pres_lookup (defs : List (String × SVal)) :
    ∀ (d : List (String × SVal)) (k : String) (v : SVal),
      lookupS d k = some v → lookupS (mergeGo defs d) k = some v := by
  induction defs with
  | nil => intro d k v h; exact h
  | cons kv rest ih =>
      intro d k v h
      show lookupS (mergeGo rest (if containsKey d kv.1 then d else d ++ [kv])) k = some v
      by_cases hc : containsKey d kv.1 = true
      · rw [if_pos hc]
        exact ih d k v h
      · rw [if_neg hc]
        exact ih (d ++ [kv]) k v (lookupS_append_left h)

theorem mergeGo_pres_contains (defs : List (String × SVal)) :
    ∀ (d : List (String × SVal)) (k : String),
      containsKey d k = true → containsKey (mergeGo defs d) k = true := by
  induction defs with
  | nil => intro d k h; exact h
  | cons kv rest ih =>
      intro d k h
      show containsKey (mergeGo rest (if containsKey d kv.1 then d else d ++ [kv])) k = true
      by_cases hc : containsKey d kv.1 = true
      · rw [if_pos hc]
        exact ih d k h
      · rw [if_neg hc]
        exact ih (d ++ [kv]) k (by rw [containsKey_append, h]; rfl)

theorem mergeGo_contains_of_mem (defs : List (String × SVal)) :
    ∀ (d : List (String × SVal)) (kv : String × SVal),
      kv ∈ defs → containsKey (mergeGo defs d) kv.1 = true := by
  induction defs with
  | nil => intro d kv h; cases h
  | cons kv0 rest ih =>
      intro d kv h
      show containsKey (mergeGo rest (if containsKey d kv0.1 then d else d ++ [kv0])) kv.1 = true
      rcases List.mem_cons.mp h with rfl | hrest
      · by_cases hc : containsKey d kv.1 = true
        · rw [if_pos hc]
          exact mergeGo_pres_contains rest d kv.1 hc
        · rw [if_neg hc]
          apply mergeGo_pres_contains rest (d ++ [kv]) kv.1
          rw [containsKey_append]
          simp [containsKey]
      · exact ih _ kv hrest

theorem mergeGo_backfills (defs : List (String × SVal)) :
    ∀ (d : List (String × SVal)) (k : String) (v : SVal),
      lookupS defs k = some v → containsKey d k = false →
      lookupS (mergeGo defs d) k = some v := by
  induction defs with
  | nil => intro d k v h; cases h
  | cons kv rest ih =>
      intro d k v h hd
      show lookupS (mergeGo rest (if containsKey d kv.1 then d else d ++ [kv])) k = some v
      by_cases hk : kv.1 = k
      · have hv : v = kv.2 := by
          unfold lookupS at h
          rw [List.find?_cons_of_pos _ (by simp [hk])] at h
          simp at h
          exact h.symm
        rw [if_neg (by rw [hk]; simp [hd])]
        apply mergeGo_pres_lookup rest (d ++ [kv]) k
        unfold lookupS
        rw [List.find?_append, show d.find? (fun p => p.1 = k) = none from ?side,
          Option.none_or]
        · simp [hk, hv]
        case side =>
          rw [List.find?_eq_none.mpr]
          intro p hp hpk
          have hT : containsKey d k = true := by
            unfold containsKey
            exact List.any_eq_true.mpr ⟨p, hp, hpk⟩
          rw [hd] at hT
          simp at hT
      · have hrest : lookupS rest k = some v := by
          unfold lookupS at h
          rw [List.find?_cons_of_neg _ (by simp [hk])] at h
          exact h
        by_cases hc : containsKey d kv.1 = true
        · rw [if_pos hc]
          exact ih d k v hrest hd
        · rw [if_neg hc]
          apply ih (d ++ [kv]) k v hrest
          rw [containsKey_append, hd]
          simp [containsKey, hk]

theorem mergeGo_id (defs : List (String × SVal)) :
    ∀ (d : List (String × SVal)),
      (∀ kv ∈ defs, containsKey d kv.1 = true) → mergeGo defs d = d := by
  induction defs with
  | nil => intro d _; rfl
  | cons kv rest ih =>
      intro d h
      show mergeGo rest (if containsKey d kv.1 then d else d ++ [kv]) = d
      rw [if_pos (h kv (List.mem_cons_self kv rest))]
      exact ih d (fun x hx => h x (List.mem_cons_of_mem kv hx))

/-- C9: loading a parsed settings record backfills every missing default
key with its default value, preserves every key/value pair already
present (first-match lookup semantics), makes every default key present,
and loads a record that is missing no default key unchanged. -/
theorem C9_settings_merge (data : List (String × SVal)) :
    (∀ k v, lookupS data k = some v →
      lookupS (load_settings (some (some data))) k = some v) ∧
    (∀ kv, kv ∈ DEFAULT_SETTINGS →
      containsKey (load_settings (some (some data))) kv.1 = true) ∧
    (∀ k v, lookupS DEFAULT_SETTINGS k = some v → containsKey data k = false →
      lookupS (load_settings (some (some data))) k = some v) ∧
    ((∀ kv ∈ DEFAULT_SETTINGS, containsKey data kv.1 = true) →
      load_settings (some (some data)) = data) := by
  refine ⟨?_, ?_, ?_, ?_⟩
  · intro k v h
    exact mergeGo_pres_lookup DEFAULT_SETTINGS data k v h
  · intro kv h
    exact mergeGo_contains_of_mem DEFAULT_SETTINGS data kv h
  · intro k v h hd
    exact mergeGo_backfills DEFAULT_SETTINGS data k v h hd
  · intro h
    exact mergeGo_id DEFAULT_SETTINGS data h

theorem C9_witness :
    lookupS (load_settings (some (some [("rubric", SVal.str "FOOD")]))) "rubric" =
        some (SVal.str "FOOD") ∧
    lookupS (load_settings (some (some [("rubric", SVal.str "FOOD")]))) "tone" =
        some (SVal.str "FRIENDLY") :=
  ⟨(C9_settings_merge [("rubric", SVal.str "FOOD")]).1 "rubric" (SVal.str "FOOD") (by decide),
   (C9_settings_merge [("rubric", SVal.str "FOOD")]).2.2.1 "tone" (SVal.str "FRIENDLY")
     (by decide) (by decide)⟩

/-! ## C7: scheduler trigger uniqueness -/

theorem countJob_removeJob (jobs : List (String × CronTrigger)) :
    (removeJob jobs).filter (fun j => j.1 = "travel_post_job") = [] := by
  unfold removeJob
  rw [List.filter_filter]
  apply List.filter_eq_nil_iff.mpr
  intro j _
  by_cases h : j.1 = "travel_post_job"
  · simp [h]
  · simp [h]

theorem countJob_setup_teardown (s : Settings) (e : SchedEnv) (st : SchedState)
    (hav : e.apschedulerAvailable = true)
    (hoff : ¬(s.schedule.getD ⟨false, none, none⟩).enabled = true ∨
      truthyOptInt (resolveSchedTarget s e) = false) :
    countJob (setup_scheduler s e st) = 0 := by
  unfold setup_scheduler
  rw [if_neg (by simp [hav])]
  have hcond : (¬(s.schedule.getD ⟨false, none, none⟩).enabled = true ∨
      ¬truthyOptInt (resolveSchedTarget s e) = true) := by
    rcases hoff with h | h
    · exact Or.inl h
    · exact Or.inr (by simp [h])
  rw [if_pos hcond]
  cases st with
  | none => rfl
  | some jobs =>
      show countJob (some (removeJob jobs)) = 0
      simp only [countJob]
      rw [countJob_removeJob]
      rfl

theorem countJob_setup_le (s : Settings) (e : SchedEnv) (st : SchedState)
    (h : countJob st ≤ 1) : countJob (setup_scheduler s e st) ≤ 1 := by
  unfold setup_scheduler
  by_cases hav : e.apschedulerAvailable = true
  · rw [if_neg (by simp [hav])]
    by_cases hcond : (¬(s.schedule.getD ⟨false, none, none⟩).enabled = true ∨
        ¬truthyOptInt (resolveSchedTarget s e) = true)
    · rw [if_pos hcond]
      cases st with
      | none => exact Nat.zero_le 1
      | some jobs =>
          show countJob (some (removeJob jobs)) ≤ 1
          simp only [countJob]
          rw [countJob_removeJob]
          exact Nat.zero_le 1
    · rw [if_neg hcond]
      simp only [countJob]
      rw [List.filter_append, countJob_removeJob]
      simp
  · rw [if_pos (by simp [hav])]
    exact h

theorem countJob_runSchedCalls_aux (calls : List (Settings × SchedEnv)) :
    ∀ st : SchedState, countJob st ≤ 1 →
      countJob (calls.foldl (fun st c => setup_scheduler c.1 c.2 st) st) ≤ 1 := by
  induction calls with
  | nil => intro st h; exact h
  | cons c rest ih =>
      intro st h
      exact ih _ (countJob_setup_le c.1 c.2 st h)

/-- C7: starting from process start (no scheduler object), after any
sequence of `setup_scheduler` calls at most one trigger is installed for
the logical job id `"travel_post_job"`; and after a further call made
while scheduling is disabled or no target chat is resolvable, no trigger
for that job remains (any previously installed one is removed). -/
theorem C7_single_trigger (calls : List (Settings × SchedEnv)) :
    countJob (runSchedCalls calls) ≤ 1 ∧
    (∀ s e, e.apschedulerAvailable = true →
      (¬(s.schedule.getD ⟨false, none, none⟩).enabled = true ∨
        truthyOptInt (resolveSchedTarget s e) = false) →
      countJob (setup_scheduler s e (runSchedCalls calls)) = 0) := by
  constructor
  · unfold runSchedCalls
    exact countJob_runSchedCalls_aux calls none (Nat.zero_le 1)
  · intro s e hav hoff
    exact countJob_setup_teardown s e (runSchedCalls calls) hav hoff

theorem C7_witness :
    countJob (runSchedCalls
      [(⟨some 42, none, none, none, true, some ⟨true, some "10:00", some "daily"⟩, none, []⟩,
        ⟨true, none⟩),
       (⟨some 42, none, none, none, true, some ⟨true, some "10:00", some "daily"⟩, none, []⟩,
        ⟨true, none⟩)]) ≤ 1 ∧
    countJob (setup_scheduler
      ⟨some 42, none, none, none, true, some ⟨false, none, none⟩, none, []⟩ ⟨true, none⟩
      (runSchedCalls
        [(⟨some 42, none, none, none, true, some ⟨true, some "10:00", some "daily"⟩, none, []⟩,
          ⟨true, none⟩),
         (⟨some 42, none, none, none, true, some ⟨true, some "10:00", some "daily"⟩, none, []⟩,
          ⟨true, none⟩)])) = 0 :=
  ⟨(C7_single_trigger
      [(⟨some 42, none, none, none, true, some ⟨true, some "10:00", some "daily"⟩, none, []⟩,
        ⟨true, none⟩),
       (⟨some 42, none, none, none, true, some ⟨true, some "10:00", some "daily"⟩, none, []⟩,
        ⟨true, none⟩)]).1,
   (C7_single_trigger
      [(⟨some 42, none, none, none, true, some ⟨true, some "10:00", some "daily"⟩, none, []⟩,
        ⟨true, none⟩),
       (⟨some 42, none, none, none, true, some ⟨true, some "10:00", some "daily"⟩, none, []⟩,
        ⟨true, none⟩)]).2
     ⟨some 42, none, none, none, true, some ⟨false, none, none⟩, none, []⟩ ⟨true, none⟩
     rfl (Or.inl (by decide))⟩

/-! ## C1 / C2: publish pipeline -/

theorem run_tiers_eq (settings : Settings) (dov : Option String) (env : PublishEnv)
    (log : List LogEntry) (c : Content)
    (htarget : truthyOptInt settings.target_chat_id = true)
    (hkey : env.hasOpenAIKey = true)
    (htext : env.textGen = Except.ok c) :
    (run_generate_and_publish settings dov env log).tiers =
      (deliverPrimary (firstImageUrl env.imageGen) (runPostText c) env).2 := by
  simp only [run_generate_and_publish, htext, htarget, hkey, not_true, if_false]
  split
  · rfl
  · rfl


theorem run_deliver_ok (settings : Settings) (dov : Option String) (env : PublishEnv)
    (log : List LogEntry) (c : Content) (mid : Nat)
    (htarget : truthyOptInt settings.target_chat_id = true)
    (hkey : env.hasOpenAIKey = true)
    (htext : env.textGen = Except.ok c)
    (hmid : (deliverPrimary (firstImageUrl env.imageGen) (runPostText c) env).1 =
      Except.ok mid) :
    (run_generate_and_publish settings dov env log).result.ok = true ∧
    (run_generate_and_publish settings dov env log).result.tg_message_id = some mid ∧
    (run_generate_and_publish settings dov env log).result.error = none := by
  simp only [runPostText] at hmid
  simp only [run_generate_and_publish, htext, htarget, hkey, not_true, if_false, hmid]
  exact ⟨trivial, trivial, trivial⟩

theorem run_deliver_err (settings : Settings) (dov : Option String) (env : PublishEnv)
    (log : List LogEntry) (c : Content) (msg : String)
    (htarget : truthyOptInt settings.target_chat_id = true)
    (hkey : env.hasOpenAIKey = true)
    (htext : env.textGen = Except.ok c)
    (hmsg : (deliverPrimary (firstImageUrl env.imageGen) (runPostText c) env).1 =
      Except.error msg) :
    (run_generate_and_publish settings dov env log).result =
      ⟨false, none, none, some msg⟩ ∧
    (run_generate_and_publish settings dov env log).log = log := by
  simp only [runPostText] at hmsg
  simp only [run_generate_and_publish, htext, htarget, hkey, not_true, if_false, hmsg]
  exact ⟨trivial, trivial⟩

theorem deliverPrimary_none (pt : String) (env : PublishEnv) :
    deliverPrimary none pt env = (env.sendTextOnly pt, [(Tier.textOnly, pt)]) := by
  simp [deliverPrimary, truthyOptStr]

theorem deliverPrimary_some_url_ok (u : String) (hu : u ≠ "") (pt : String)
    (env : PublishEnv) (mid : Nat)
    (h1 : env.sendPhotoUrl u (pyTake 1024 pt) = Except.ok mid) :
    deliverPrimary (some u) pt env = (Except.ok mid, [(Tier.url, pyTake 1024 pt)]) := by
  simp [deliverPrimary, truthyOptStr, hu, h1]

theorem deliverPrimary_some_bytes_ok (u : String) (hu : u ≠ "") (pt : String)
    (env : PublishEnv) (e1 : String) (mid : Nat)
    (h1 : env.sendPhotoUrl u (pyTake 1024 pt) = Except.error e1)
    (h2 : env.sendPhotoBytes u (pyTake 1024 pt) = Except.ok mid) :
    deliverPrimary (some u) pt env =
      (Except.ok mid, [(Tier.url, pyTake 1024 pt), (Tier.bytes, pyTake 1024 pt)]) := by
  simp [deliverPrimary, truthyOptStr, hu, h1, h2]

theorem deliverPrimary_some_text (u : String) (hu : u ≠ "") (pt : String)
    (env : PublishEnv) (e1 e2 : String)
    (h1 : env.sendPhotoUrl u (pyTake 1024 pt) = Except.error e1)
    (h2 : env.sendPhotoBytes u (pyTake 1024 pt) = Except.error e2) :
    deliverPrimary (some u) pt env =
      (env.sendTextOnly pt,
       [(Tier.url, pyTake 1024 pt), (Tier.bytes, pyTake 1024 pt), (Tier.textOnly, pt)]) := by
  simp [deliverPrimary, truthyOptStr, hu, h1, h2]


theorem run_ok_shape (settings : Settings) (dov : Option String) (env : PublishEnv)
    (log : List LogEntry) :
    (run_generate_and_publish settings dov env log).result.ok = true →
      ((run_generate_and_publish settings dov env log).result.tg_message_id).isSome = true ∧
      (run_generate_and_publish settings dov env log).result.error = none := by
  simp only [run_generate_and_publish]
  split
  · intro h
    simp at h
  · split
    · intro h
      simp at h
    · split
      · intro h
        simp at h
      · split
        · intro h
          simp at h
        · intro _
          exact ⟨rfl, rfl⟩

theorem run_ok_iff (settings : Settings) (dov : Option String) (env : PublishEnv)
    (log : List LogEntry) :
    (run_generate_and_publish settings dov env log).result.ok = true ↔
      (truthyOptInt settings.target_chat_id = true ∧ env.hasOpenAIKey = true ∧
       ∃ c, env.textGen = Except.ok c ∧
         ∃ mid, (deliverPrimary (firstImageUrl env.imageGen) (runPostText c) env).1 =
           Except.ok mid) := by
  constructor
  · intro h
    by_cases h1 : truthyOptInt settings.target_chat_id = true
    · by_cases h2 : env.hasOpenAIKey = true
      · cases htext : env.textGen with
        | error e =>
            exfalso
            simp only [run_generate_and_publish, h1, h2, htext, not_true, if_false] at h
            simp at h
        | ok c =>
            refine ⟨h1, h2, c, rfl, ?_⟩
            cases hd : (deliverPrimary (firstImageUrl env.imageGen) (runPostText c) env).1 with
            | error m =>
                exfalso
                have := (run_deliver_err settings dov env log c m h1 h2 htext hd).1
                rw [this] at h
                simp at h
            | ok mid => exact ⟨mid, rfl⟩
      · exfalso
        rw [Bool.not_eq_true] at h2
        simp only [run_generate_and_publish, h1, h2] at h
        simp at h
    · exfalso
      rw [Bool.not_eq_true] at h1
      simp only [run_generate_and_publish, h1] at h
      simp at h
  · rintro ⟨h1, h2, c, htext, mid, hd⟩
    exact (run_deliver_ok settings dov env log c mid h1 h2 htext hd).1

theorem run_ok_vk_irrel (settings : Settings) (dov : Option String) (env : PublishEnv)
    (log : List LogEntry) (v w : Except String (Option Int)) :
    (run_generate_and_publish settings dov { env with vkPublish := v } log).result.ok =
      (run_generate_and_publish settings dov { env with vkPublish := w } log).result.ok := by
  have hv := run_ok_iff settings dov { env with vkPublish := v } log
  have hw := run_ok_iff settings dov { env with vkPublish := w } log
  cases hbv : (run_generate_and_publish settings dov { env with vkPublish := v } log).result.ok
  · cases hbw : (run_generate_and_publish settings dov { env with vkPublish := w } log).result.ok
    · rfl
    · exfalso
      obtain ⟨h1, h2, c, ht, mid, hd⟩ := hw.mp hbw
      have hvt : (run_generate_and_publish settings dov
          { env with vkPublish := v } log).result.ok = true :=
        hv.mpr ⟨h1, h2, c, ht, mid, hd⟩
      rw [hbv] at hvt
      cases hvt
  · cases hbw : (run_generate_and_publish settings dov { env with vkPublish := w } log).result.ok
    · exfalso
      obtain ⟨h1, h2, c, ht, mid, hd⟩ := hv.mp hbv
      have hwt : (run_generate_and_publish settings dov
          { env with vkPublish := w } log).result.ok = true :=
        hw.mpr ⟨h1, h2, c, ht, mid, hd⟩
      rw [hbw] at hwt
      cases hwt
    · rfl

theorem run_mirror_fail (settings : Settings) (dov : Option String) (env : PublishEnv)
    (log : List LogEntry) (c : Content) (mid : Nat) (er : String)
    (htarget : truthyOptInt settings.target_chat_id = true)
    (hkey : env.hasOpenAIKey = true)
    (htext : env.textGen = Except.ok c)
    (hd : (deliverPrimary (firstImageUrl env.imageGen) (runPostText c) env).1 =
      Except.ok mid)
    (hvk : env.vkPublish = Except.error er) :
    (run_generate_and_publish settings dov env log).result.ok = true ∧
    (run_generate_and_publish settings dov env log).result.vk_post_id = none ∧
    (run_generate_and_publish settings dov env log).log =
      log ++ [⟨settings.target_chat_id.getD 0, Int.ofNat mid, orStr settings.rubric "TIPS",
        pyTrim (orStr dov (orStr settings.destination "Стамбул")),
        orStr settings.tone "FRIENDLY", none, some 0⟩] := by
  simp only [runPostText] at hd
  simp only [run_generate_and_publish, htarget, hkey, htext, not_true, if_false, hd, hvk]
  refine ⟨trivial, ?_, ?_⟩
  · rw [ite_self]
  · rw [ite_self]


/-- C1: with an image url present, primary delivery attempts exactly the
three tiers in order -- photo-by-url with the truncated text as caption,
then photo-by-downloaded-bytes with the same caption, then text-only --
each later tier only after the previous attempt failed, and the first
succeeding tier's message id becomes the primary message id; with no
image, the text-only path is used directly with no image tier attempted. -/
theorem C1_three_tier_fallback (settings : Settings) (dov : Option String)
    (env : PublishEnv) (log : List LogEntry) (c : Content)
    (htarget : truthyOptInt settings.target_chat_id = true)
    (hkey : env.hasOpenAIKey = true)
    (htext : env.textGen = Except.ok c) :
    (firstImageUrl env.imageGen = none →
      (run_generate_and_publish settings dov env log).tiers =
        [(Tier.textOnly, runPostText c)] ∧
      ∀ mid, env.sendTextOnly (runPostText c) = Except.ok mid →
        (run_generate_and_publish settings dov env log).result.tg_message_id = some mid) ∧
    (∀ u, firstImageUrl env.imageGen = some u → u ≠ "" →
      (∀ mid, env.sendPhotoUrl u (runCaption c) = Except.ok mid →
        (run_generate_and_publish settings dov env log).tiers =
          [(Tier.url, runCaption c)] ∧
        (run_generate_and_publish settings dov env log).result.tg_message_id = some mid) ∧
      (∀ e1 mid, env.sendPhotoUrl u (runCaption c) = Except.error e1 →
        env.sendPhotoBytes u (runCaption c) = Except.ok mid →
        (run_generate_and_publish settings dov env log).tiers =
          [(Tier.url, runCaption c), (Tier.bytes, runCaption c)] ∧
        (run_generate_and_publish settings dov env log).result.tg_message_id = some mid) ∧
      (∀ e1 e2, env.sendPhotoUrl u (runCaption c) = Except.error e1 →
        env.sendPhotoBytes u (runCaption c) = Except.error e2 →
        (run_generate_and_publish settings dov env log).tiers =
          [(Tier.url, runCaption c), (Tier.bytes, runCaption c),
           (Tier.textOnly, runPostText c)] ∧
        ∀ mid, env.sendTextOnly (runPostText c) = Except.ok mid →
          (run_generate_and_publish settings dov env log).result.tg_message_id = some mid)) := by
  have htiers := run_tiers_eq settings dov env log c htarget hkey htext
  constructor
  · intro himg
    constructor
    · rw [htiers, himg, deliverPrimary_none]
    · intro mid hst
      have hdel : (deliverPrimary (firstImageUrl env.imageGen) (runPostText c) env).1 =
          Except.ok mid := by
        rw [himg, deliverPrimary_none]
        exact hst
      exact (run_deliver_ok settings dov env log c mid htarget hkey htext hdel).2.1
  · intro u himg hu
    refine ⟨?_, ?_, ?_⟩
    · intro mid h1
      have heq := deliverPrimary_some_url_ok u hu (runPostText c) env mid h1
      constructor
      · rw [htiers, himg, heq]
        exact rfl
      · exact (run_deliver_ok settings dov env log c mid htarget hkey htext
          (by rw [himg, heq])).2.1
    · intro e1 mid h1 h2
      have heq := deliverPrimary_some_bytes_ok u hu (runPostText c) env e1 mid h1 h2
      constructor
      · rw [htiers, himg, heq]
        exact rfl
      · exact (run_deliver_ok settings dov env log c mid htarget hkey htext
          (by rw [himg, heq])).2.1
    · intro e1 e2 h1 h2
      have heq := deliverPrimary_some_text u hu (runPostText c) env e1 e2 h1 h2
      constructor
      · rw [htiers, himg, heq]
        exact rfl
      · intro mid hst
        have hdel : (deliverPrimary (firstImageUrl env.imageGen) (runPostText c) env).1 =
            Except.ok mid := by
          rw [himg, heq]
          exact hst
        exact (run_deliver_ok settings dov env log c mid htarget hkey htext hdel).2.1

theorem C1_witness :
    (run_generate_and_publish wSettings none wEnvUrlOk []).tiers =
      [(Tier.url, runCaption wContent)] ∧
    (run_generate_and_publish wSettings none wEnvUrlOk []).result.tg_message_id = some 5 :=
  ((C1_three_tier_fallback wSettings none wEnvUrlOk [] wContent rfl rfl rfl).2
    "http://img" rfl (by decide)).1 5 rfl

/-- C2: `ok=true` implies a primary message id was obtained and `error`
is empty; the result's `ok` is insensitive to the VK mirror outcome; a
failed image generation still yields `ok=true` when text-only delivery
succeeds; and on a VK mirror failure the run still reports `ok=true`,
no secondary post id, and the appended log entry keeps a null
`vk_post_id`. -/
theorem C2_result_semantics (settings : Settings) (dov : Option String)
    (env : PublishEnv) (log : List LogEntry) :
    ((run_generate_and_publish settings dov env log).result.ok = true →
      ((run_generate_and_publish settings dov env log).result.tg_message_id).isSome = true ∧
      (run_generate_and_publish settings dov env log).result.error = none) ∧
    (∀ v w : Except String (Option Int),
      (run_generate_and_publish settings dov { env with vkPublish := v } log).result.ok =
        (run_generate_and_publish settings dov { env with vkPublish := w } log).result.ok) ∧
    (∀ c mid, truthyOptInt settings.target_chat_id = true → env.hasOpenAIKey = true →
      env.textGen = Except.ok c → firstImageUrl env.imageGen = none →
      env.sendTextOnly (runPostText c) = Except.ok mid →
      (run_generate_and_publish settings dov env log).result.ok = true) ∧
    (∀ c mid er, truthyOptInt settings.target_chat_id = true → env.hasOpenAIKey = true →
      env.textGen = Except.ok c →
      (deliverPrimary (firstImageUrl env.imageGen) (runPostText c) env).1 = Except.ok mid →
      env.vkPublish = Except.error er →
      (run_generate_and_publish settings dov env log).result.ok = true ∧
      (run_generate_and_publish settings dov env log).result.vk_post_id = none ∧
      (run_generate_and_publish settings dov env log).log =
        log ++ [⟨settings.target_chat_id.getD 0, Int.ofNat mid,
          orStr settings.rubric "TIPS",
          pyTrim (orStr dov (orStr settings.destination "Стамбул")),
          orStr settings.tone "FRIENDLY", none, some 0⟩]) := by
  refine ⟨run_ok_shape settings dov env log, ?_, ?_, ?_⟩
  · intro v w
    exact run_ok_vk_irrel settings dov env log v w
  · intro c mid h1 h2 ht himg hst
    have hdel : (deliverPrimary (firstImageUrl env.imageGen) (runPostText c) env).1 =
        Except.ok mid := by
      rw [himg, deliverPrimary_none]
      exact hst
    exact (run_deliver_ok settings dov env log c mid h1 h2 ht hdel).1
  · intro c mid er h1 h2 ht hd hvk
    exact run_mirror_fail settings dov env log c mid er h1 h2 ht hd hvk

theorem C2_witness :
    (run_generate_and_publish wSettings none wEnvUrlOk []).result.ok = true ∧
    (run_generate_and_publish wSettings none wEnvUrlOk []).result.vk_post_id = none ∧
    (run_generate_and_publish wSettings none wEnvUrlOk []).log =
      [] ++ [⟨42, 5, "TIPS", "Лиссабон", "FRIENDLY", none, some 0⟩] :=
  (C2_result_semantics wSettings none wEnvUrlOk []).2.2.2 wContent 5 "vk down"
    rfl rfl rfl rfl rfl

end TravelBot
